import Mathlib

/-!
Shallow embedding of the tool-augmented conversation engine of the
`tangents` package (src/tangents/core/agent.py, src/tangents/core/tool_types.py,
src/tangents/agents/orchestrator.py), together with theorems settling the
specification claims about it.

Modelling conventions:
* Python dicts (str-keyed, insertion ordered) become association lists with
  replace-in-place assignment, matching CPython semantics.
* A handler callable that may raise becomes a total Lean function returning
  `Except String String`: `Except.error msg` is a raised exception whose
  `str(e)` is `msg`, `Except.ok s` is a normal return whose `str(result)` is `s`.
* The streamed Anthropic response consumed by `Agent.think` becomes a list of
  stream events; an exception raised by the transport while iterating the
  stream is an explicit terminating event.
* Straight-line stateful code becomes explicit state passing; where a claim is
  about the order of side effects (status writes versus the nested `think`
  call), the function additionally returns an event trace listing those
  effects in program order.
-/

namespace Tangents

/-- The apostrophe character (codepoint 39), used to rebuild the source's
quoted error strings such as `Error: Tool 'x' not found`. -/
def sq : String := String.singleton (Char.ofNat 39)

/-- Arguments passed to a tool handler: the `tool_input` dict of
`Agent._handle_tool_use`, modelled as a string-keyed association list of
string-valued arguments (the fragment the claims exercise). -/
def ToolInput := List (String × String)

instance : DecidableEq ToolInput := by
  unfold ToolInput
  infer_instance

/-- The `input_schema` field of `Tool` (src/tangents/core/tool_types.py) is an
arbitrary JSON-schema document (`Dict[str, Any]`).  The embedding keeps its
`required` clause, the only part any claim exercises; the dispatch path of
`Agent._handle_tool_use` never reads the schema at all, matching the source. -/
structure InputSchema where
  required : List String
deriving DecidableEq

/-- `Tool` from src/tangents/core/tool_types.py: name, description,
input_schema, and an optional handler (`handler: Optional[Callable] = None`). -/
structure Tool where
  name : String
  description : String
  input_schema : InputSchema
  handler : Option (ToolInput → Except String String)

/-- The agent's tool registry `self.tools : Dict[str, Tool]`, keyed by
`Tool.name`, in insertion order. -/
abbrev Registry := List Tool

/-- Dict lookup `self.tools[name]` / membership `name in self.tools`. -/
def find? : Registry → String → Option Tool
  | [], _ => none
  | t :: ts, n => if t.name = n then some t else find? ts n

/-- `Agent.add_tool` (src/tangents/core/agent.py lines 139-147):
`self.tools[tool.name] = tool`.  CPython dict assignment replaces the value in
place when the key exists and appends otherwise. -/
def add_tool : Registry → Tool → Registry
  | [], t => [t]
  | u :: us, t => if u.name = t.name then t :: us else u :: add_tool us t

/-- `list(self.tools.keys())`: the registry's listing, in insertion order. -/
def list_tools (r : Registry) : List String := r.map Tool.name

/-- One entry of a `tool_calls` stream chunk as consumed by `Agent.think`
(lines 262-267): tool name, parameters, and correlation id. -/
structure ToolUse where
  name : String
  input : ToolInput
  id : String
deriving DecidableEq

/-- The dict returned by `Agent._handle_tool_use`.  The success branch of the
source omits the `is_error` key, which downstream consumers read as false;
the embedding stores explicit `false` there. -/
structure ToolResult where
  tool_use_id : String
  content : String
  is_error : Bool
deriving DecidableEq

/-- `Agent._handle_tool_use` (src/tangents/core/agent.py lines 181-213):
unknown tool and missing handler produce error results; otherwise the handler
is invoked inside try/except, a raise being converted to an error result. -/
def handle_tool_use (tools : Registry) (tu : ToolUse) : ToolResult :=
  match find? tools tu.name with
  | none =>
      ⟨tu.id, "Error: Tool " ++ sq ++ tu.name ++ sq ++ " not found", true⟩
  | some tool =>
      match tool.handler with
      | none =>
          ⟨tu.id, "Error: No handler defined for tool " ++ sq ++ tu.name ++ sq, true⟩
      | some f =>
          match f tu.input with
          | Except.ok r => ⟨tu.id, r, false⟩
          | Except.error e =>
              ⟨tu.id, "Error executing tool " ++ sq ++ tu.name ++ sq ++ ": " ++ e, true⟩

/-- The per-batch dispatch loop of `Agent.think` (lines 262-271): each
`tool_call` of the chunk is handled in order by `_handle_tool_use`. -/
def dispatch (tools : Registry) (batch : List ToolUse) : List ToolResult :=
  batch.map (handle_tool_use tools)

/-- Modelled from the spec: the `validate` capability of a tool.
`ToolValidator.validate_input_values` (src/tangents/core/tool_validation.py
lines 248-262) delegates entirely to `jsonschema.validate`, an external
library that is not part of the repository; the embedding keeps the
required-properties clause of JSON schema, the fragment the claims exercise:
every name listed in `schema.required` must be present among the arguments. -/
def requiredOk (schema : InputSchema) (input : ToolInput) : Bool :=
  schema.required.all (fun k => (input.lookup k).isSome)

/-- One message of the conversation list mutated by `Agent.think`: the initial
user message, or a tool-result message appended after dispatch (lines 268-271). -/
inductive Message where
  | user (text : String)
  | toolResult (r : ToolResult)
deriving DecidableEq

/-- One event of the streamed response iterated by `Agent.think`
(lines 248-273).  `transport_error` models the transport raising an exception
while the stream is being iterated: iteration stops and the exception
propagates out of `think`, which has no try/except around the loop. -/
inductive StreamEvent where
  | message_start
  | content_block_start
  | content_block_delta (text : String)
  | tool_calls (batch : List ToolUse)
  | transport_error (reason : String)
deriving DecidableEq

/-- Is this event a `tool_calls` chunk? -/
def StreamEvent.isToolCalls : StreamEvent → Bool
  | StreamEvent.tool_calls _ => true
  | _ => false

/-- Is this event a transport failure? -/
def StreamEvent.isTransportError : StreamEvent → Bool
  | StreamEvent.transport_error _ => true
  | _ => false

/-- The concatenation, in emission order, of the text fragments of the
`content_block_delta` events of a stream. -/
def concatDeltas : List StreamEvent → String
  | [] => ""
  | StreamEvent.content_block_delta t :: es => t ++ concatDeltas es
  | _ :: es => concatDeltas es

/-- Result of the streaming loop of `Agent.think`: the accumulated
`full_response`, the final `messages` list, and, for each re-submission
`self.client.messages.create(**api_params)` performed after a `tool_calls`
chunk (line 273), the `messages` value passed to it. -/
structure StreamOutcome where
  full_response : String
  messages : List Message
  resume_calls : List (List Message)
deriving DecidableEq

/-- The streaming loop of `Agent.think` (src/tangents/core/agent.py lines
246-273), as a fold over the stream's events.  `message_start` and
`content_block_start` are skipped; `content_block_delta` appends to the
accumulated response; `tool_calls` dispatches every request of the batch,
appends one tool-result message per request to `messages`, and then re-submits
the updated conversation (recorded in `resume_calls`; the new stream is not
iterated by the surrounding `for` loop, which continues over the original
iterator, so processing continues with the remaining events); a transport
exception aborts the loop and propagates. -/
def runStream (tools : Registry) :
    List StreamEvent → String → List Message → List (List Message) →
    Except String StreamOutcome
  | [], acc, msgs, rs => Except.ok ⟨acc, msgs, rs⟩
  | StreamEvent.message_start :: es, acc, msgs, rs => runStream tools es acc msgs rs
  | StreamEvent.content_block_start :: es, acc, msgs, rs => runStream tools es acc msgs rs
  | StreamEvent.content_block_delta t :: es, acc, msgs, rs =>
      runStream tools es (acc ++ t) msgs rs
  | StreamEvent.tool_calls batch :: es, acc, msgs, rs =>
      runStream tools es acc (msgs ++ (dispatch tools batch).map Message.toolResult)
        (rs ++ [msgs ++ (dispatch tools batch).map Message.toolResult])
  | StreamEvent.transport_error reason :: _, _, _, _ => Except.error reason

/-- `Agent.think` (streaming path, src/tangents/core/agent.py lines 215-278):
appends the user message, iterates the stream, and returns the accumulated
`full_response`; a transport exception propagates to the caller carrying only
its own message, the local `full_response` being lost. -/
def think (tools : Registry) (message : String) (events : List StreamEvent) :
    Except String String :=
  match runStream tools events "" [Message.user message] [] with
  | Except.ok o => Except.ok o.full_response
  | Except.error r => Except.error r

/-- `AgentInfo` (src/tangents/agents/orchestrator.py lines 7-13): a managed
agent together with its description, capabilities and status
(`status: str = "idle"`).  The managed `Agent` object is represented by the
observable behaviour the orchestrator uses, its `think` method: task in,
response out or an exception. -/
structure AgentInfo where
  think : String → Except String String
  description : String
  capabilities : List String
  status : String

/-- The orchestrator's managed-agent registry `self.agents : Dict[str, AgentInfo]`. -/
abbrev Agents := List (String × AgentInfo)

/-- Dict lookup `m[k]` / membership `k in m` for string-keyed dicts. -/
def dictFind? {α : Type} : List (String × α) → String → Option α
  | [], _ => none
  | (k2, v) :: m, k => if k2 = k then some v else dictFind? m k

/-- CPython dict assignment `m[k] = v`: replaces in place when the key exists,
appends otherwise. -/
def dictSet {α : Type} : List (String × α) → String → α → List (String × α)
  | [], k, v => [(k, v)]
  | (k2, v2) :: m, k, v => if k2 = k then (k, v) :: m else (k2, v2) :: dictSet m k v

/-- `OrchestratorAgent._handle_register_agent` (src/tangents/agents/
orchestrator.py lines 140-160): constructs a fresh agent and stores an
`AgentInfo` for it under the given name; the `AgentInfo` constructor leaves
`status` at its default `"idle"`.  The `except` branch around `Agent(...)`
construction is not modelled: record construction cannot fail. -/
def handle_register_agent (agents : Agents) (agent_name description : String)
    (capabilities : List String) (agentThink : String → Except String String) :
    Agents × String :=
  (dictSet agents agent_name ⟨agentThink, description, capabilities, "idle"⟩,
   "Successfully registered agent: " ++ agent_name)

/-- One observable side effect of a delegation call, in program order: a write
to `agent_info.status`, or the invocation `agent_info.agent.think(task)`. -/
inductive DelegateStep where
  | set_status (agent_name status : String)
  | invoke_think (agent_name task : String)
deriving DecidableEq

/-- The status the delegation handler writes after the managed `think` call:
`"idle"` on normal return, `"error"` on a raised exception. -/
def statusAfter : Except String String → String
  | Except.ok _ => "idle"
  | Except.error _ => "error"

/-- `OrchestratorAgent._handle_delegate_task` (src/tangents/agents/
orchestrator.py lines 162-178): unknown names fail with a not-found string and
no mutation; otherwise status is set to `"working"`, the managed agent's
`think` runs inside try/except, and status is set to `"idle"` with the
response returned on success, or to `"error"` with a failure string on a
raise.  Returns the new registry, the returned string, and the trace of
side effects in program order. -/
def handle_delegate_task (agents : Agents) (agent_name task : String) :
    Agents × String × List DelegateStep :=
  match dictFind? agents agent_name with
  | none => (agents, "Error: Agent " ++ sq ++ agent_name ++ sq ++ " not found", [])
  | some info =>
      let working := dictSet agents agent_name
        ⟨info.think, info.description, info.capabilities, "working"⟩
      match info.think task with
      | Except.ok resp =>
          (dictSet working agent_name
             ⟨info.think, info.description, info.capabilities, "idle"⟩,
           resp,
           [DelegateStep.set_status agent_name "working",
            DelegateStep.invoke_think agent_name task,
            DelegateStep.set_status agent_name "idle"])
      | Except.error e =>
          (dictSet working agent_name
             ⟨info.think, info.description, info.capabilities, "error"⟩,
           "Error executing task: " ++ e,
           [DelegateStep.set_status agent_name "working",
            DelegateStep.invoke_think agent_name task,
            DelegateStep.set_status agent_name "error"])

/-- `Agent._handle_delegate_task` (src/tangents/core/agent.py lines 119-126):
returns the not-an-orchestrator string, or the not-found string, and otherwise
falls off the end of the function, returning Python `None` — it never touches
any status and never invokes a managed agent's `think`, hence the always-empty
side-effect trace. -/
def agent_handle_delegate_task (is_orchestrator : Bool) (managed : Agents)
    (agent_name task : String) : Option String × List DelegateStep :=
  if is_orchestrator then
    if (dictFind? managed agent_name).isSome then
      (none, [])
    else
      (some ("Error: Agent " ++ sq ++ agent_name ++ sq ++ " not found"), [])
  else
    (some "Error: Agent is not configured as an orchestrator", [])

/-! Concrete fixtures used by the witnesses and counterexamples. -/

/-- Handler of the fixture tool `greet`: succeeds on any input. -/
def greetHandler : ToolInput → Except String String := fun _ => Except.ok "HI"

/-- Handler of the fixture tool `boom`: always raises. -/
def boomHandler : ToolInput → Except String String := fun _ => Except.error "kaput"

/-- A tool whose schema requires an argument `who` but whose handler succeeds
on any input. -/
def greetTool : Tool :=
  ⟨"greet", "Greets the caller.", ⟨["who"]⟩, some greetHandler⟩

/-- A tool whose handler always raises. -/
def boomTool : Tool :=
  ⟨"boom", "Always fails.", ⟨[]⟩, some boomHandler⟩

/-- A registered tool whose `handler` field is `None`. -/
def ghostTool : Tool :=
  ⟨"ghost", "Has no handler.", ⟨[]⟩, none⟩

/-- A registry holding the three fixture tools. -/
def demoRegistry : Registry := [greetTool, boomTool, ghostTool]

/-- A request for `greet` that omits the schema-required `who` argument. -/
def invalidGreetUse : ToolUse := ⟨"greet", [], "req1"⟩

/-- A request for the unregistered tool name `missing`. -/
def missingUse : ToolUse := ⟨"missing", [], "req2"⟩

/-- A request for `boom`, whose handler raises. -/
def boomUse : ToolUse := ⟨"boom", [], "req3"⟩

/-- A request for `ghost`, the handler-less tool. -/
def ghostUse : ToolUse := ⟨"ghost", [], "req4"⟩

/-- A managed-agent registry with one well-behaved agent. -/
def demoAgents : Agents :=
  [("Writer", ⟨fun _ => Except.ok "a title", "drafts text", ["writing"], "idle"⟩)]

/-- A managed-agent registry with one agent whose `think` raises. -/
def flakyAgents : Agents :=
  [("Flaky", ⟨fun _ => Except.error "crash", "always fails", [], "idle"⟩)]

/-! Helper lemmas shared by the claim proofs. -/

/-- `_handle_tool_use` always echoes the request's id into the result. -/
theorem handle_tool_use_id (tools : Registry) (tu : ToolUse) :
    (handle_tool_use tools tu).tool_use_id = tu.id := by
  unfold handle_tool_use
  split
  · rfl
  · split
    · rfl
    · split <;> rfl

/-- Looking up a key just assigned finds the assigned value. -/
theorem dictFind?_dictSet_self {α : Type} (m : List (String × α)) (k : String) (v : α) :
    dictFind? (dictSet m k v) k = some v := by
  induction m with
  | nil => simp [dictSet, dictFind?]
  | cons p m ih =>
      by_cases h : p.1 = k
      · simp [dictSet, dictFind?, h]
      · simp [dictSet, dictFind?, h, ih]

/-- On a stream with no `tool_calls` chunk and no transport failure, the loop
returns the accumulator extended by the deltas, with untouched messages. -/
theorem runStream_quiet (tools : Registry) (es : List StreamEvent)
    (acc : String) (msgs : List Message) (rs : List (List Message))
    (h : es.all (fun e => !e.isToolCalls && !e.isTransportError) = true) :
    runStream tools es acc msgs rs = Except.ok ⟨acc ++ concatDeltas es, msgs, rs⟩ := by
  induction es generalizing acc with
  | nil => simp [runStream, concatDeltas]
  | cons e es ih =>
      simp only [List.all_cons, Bool.and_eq_true] at h
      cases e with
      | message_start =>
          simp [runStream, concatDeltas, ih acc h.2]
      | content_block_start =>
          simp [runStream, concatDeltas, ih acc h.2]
      | content_block_delta t =>
          simp [runStream, concatDeltas, ih (acc ++ t) h.2, String.append_assoc]
      | tool_calls batch =>
          simp [StreamEvent.isToolCalls] at h
      | transport_error reason =>
          simp [StreamEvent.isTransportError] at h

/-- A transport failure aborts the loop with only its own reason, whatever
text was accumulated before it. -/
theorem runStream_error_after_deltas (tools : Registry) (ts : List String)
    (reason : String) (rest : List StreamEvent) (acc : String)
    (msgs : List Message) (rs : List (List Message)) :
    runStream tools (ts.map StreamEvent.content_block_delta ++
        StreamEvent.transport_error reason :: rest) acc msgs rs =
      Except.error reason := by
  induction ts generalizing acc with
  | nil => simp [runStream]
  | cons t ts ih => simp [runStream, ih (acc ++ t)]

/-- `registry.register` replaces the entry with the same name, so the newest
definition is the one found. -/
theorem find?_add_tool_self (r : Registry) (t : Tool) :
    find? (add_tool r t) t.name = some t := by
  induction r with
  | nil => simp [add_tool, find?]
  | cons u us ih =>
      by_cases h : u.name = t.name
      · simp [add_tool, find?, h]
      · simp [add_tool, find?, h, ih]

/-- Registering the same tool twice is the same as registering it once. -/
theorem add_tool_idem (r : Registry) (t : Tool) :
    add_tool (add_tool r t) t = add_tool r t := by
  induction r with
  | nil => simp [add_tool]
  | cons u us ih =>
      by_cases h : u.name = t.name
      · simp [add_tool, h]
      · simp [add_tool, h, ih]

/-! Claim theorems. -/

/-- C1: dispatching the batch of tool-invocation requests of one model turn
yields one result per request with `results[i].tool_use_id = requests[i].id`
for every index, and after a `tool_calls` chunk the conversation is resumed
exactly once, with all of the batch's results already appended to the
conversation passed to the resumption call. -/
theorem dispatch_pairs_results_to_requests (tools : Registry)
    (batch : List ToolUse) (es : List StreamEvent) (acc : String)
    (msgs : List Message) (rs : List (List Message)) :
    (dispatch tools batch).length = batch.length ∧
    (∀ i : Nat, ((dispatch tools batch)[i]?).map ToolResult.tool_use_id
        = (batch[i]?).map ToolUse.id) ∧
    runStream tools (StreamEvent.tool_calls batch :: es) acc msgs rs =
      runStream tools es acc
        (msgs ++ (dispatch tools batch).map Message.toolResult)
        (rs ++ [msgs ++ (dispatch tools batch).map Message.toolResult]) := by
  refine ⟨by simp [dispatch], ?_, rfl⟩
  intro i
  simp only [dispatch, List.getElem?_map, Option.map_map]
  cases batch[i]? with
  | none => rfl
  | some tu => simp [handle_tool_use_id]

/-- C2: a request whose handler raises produces exactly one error result whose
content reports the failure; the exception is absorbed at the dispatch
boundary (`handle_tool_use` is total), and every sibling request's result in a
batch is computed from that request alone, so a raising handler cannot prevent
siblings from being dispatched and succeeding. -/
theorem handler_failure_isolated (tools : Registry) (tu : ToolUse) (t : Tool)
    (f : ToolInput → Except String String) (e : String)
    (hfind : find? tools tu.name = some t) (hh : t.handler = some f)
    (hraise : f tu.input = Except.error e) :
    handle_tool_use tools tu =
      ⟨tu.id, "Error executing tool " ++ sq ++ tu.name ++ sq ++ ": " ++ e, true⟩ ∧
    (handle_tool_use tools tu).is_error = true ∧
    (∀ (batch : List ToolUse) (i : Nat),
      (dispatch tools batch)[i]? = (batch[i]?).map (handle_tool_use tools)) := by
  have hres : handle_tool_use tools tu =
      ⟨tu.id, "Error executing tool " ++ sq ++ tu.name ++ sq ++ ": " ++ e, true⟩ := by
    simp [handle_tool_use, hfind, hh, hraise]
  refine ⟨hres, by rw [hres], ?_⟩
  intro batch i
  simp [dispatch, List.getElem?_map]

/-- Witness for C2: in the fixture registry, the `boom` handler raises and the
sibling `greet` request of the same two-element batch still succeeds. -/
theorem handler_failure_isolated_witness :
    (find? demoRegistry boomUse.name = some boomTool ∧
     boomTool.handler = some boomHandler ∧
     boomHandler boomUse.input = Except.error "kaput") ∧
    (handle_tool_use demoRegistry boomUse =
       ⟨boomUse.id,
        "Error executing tool " ++ sq ++ boomUse.name ++ sq ++ ": " ++ "kaput",
        true⟩ ∧
     (handle_tool_use demoRegistry boomUse).is_error = true ∧
     (∀ (batch : List ToolUse) (i : Nat),
       (dispatch demoRegistry batch)[i]? =
         (batch[i]?).map (handle_tool_use demoRegistry))) ∧
    dispatch demoRegistry [boomUse, ⟨"greet", [("who", "x")], "req5"⟩] =
      [⟨"req3", "Error executing tool " ++ sq ++ "boom" ++ sq ++ ": kaput", true⟩,
       ⟨"req5", "HI", false⟩] :=
  ⟨⟨rfl, rfl, rfl⟩,
   handler_failure_isolated demoRegistry boomUse boomTool boomHandler "kaput" rfl rfl rfl,
   rfl⟩

/-- C7: registering a tool whose name is already present replaces the prior
definition without error or merging — the newest definition is the one looked
up — and registering the very same tool twice leaves the registry, and hence
its listing's length and content, unchanged. -/
theorem register_last_write_wins (r : Registry) (t : Tool) :
    find? (add_tool r t) t.name = some t ∧
    add_tool (add_tool r t) t = add_tool r t ∧
    list_tools (add_tool (add_tool r t) t) = list_tools (add_tool r t) := by
  refine ⟨find?_add_tool_self r t, add_tool_idem r t, ?_⟩
  rw [add_tool_idem]

/-- C10: a request naming a registered tool whose `handler` field is `None`
yields an error result with the source's exact message instead of raising;
`handle_tool_use` is total, so the case is fully handled at the dispatch
boundary. -/
theorem missing_handler_error_result (tools : Registry) (tu : ToolUse)
    (t : Tool) (hfind : find? tools tu.name = some t) (hh : t.handler = none) :
    handle_tool_use tools tu =
      ⟨tu.id, "Error: No handler defined for tool " ++ sq ++ tu.name ++ sq, true⟩ ∧
    (handle_tool_use tools tu).is_error = true := by
  have hres : handle_tool_use tools tu =
      ⟨tu.id, "Error: No handler defined for tool " ++ sq ++ tu.name ++ sq, true⟩ := by
    simp [handle_tool_use, hfind, hh]
  exact ⟨hres, by rw [hres]⟩

/-- Witness for C10: the fixture tool `ghost` is registered with no handler. -/
theorem missing_handler_error_result_witness :
    (find? demoRegistry ghostUse.name = some ghostTool ∧
     ghostTool.handler = none) ∧
    (handle_tool_use demoRegistry ghostUse =
       ⟨ghostUse.id,
        "Error: No handler defined for tool " ++ sq ++ ghostUse.name ++ sq,
        true⟩ ∧
     (handle_tool_use demoRegistry ghostUse).is_error = true) :=
  ⟨⟨rfl, rfl⟩, missing_handler_error_result demoRegistry ghostUse ghostTool rfl rfl⟩

/-- C3 counterexample: the dispatch path performs no argument validation —
the `greet` request omits the schema-required `who` argument, yet the handler
is invoked and its successful result returned instead of an error — and the
not-found message is `Error: Tool 'missing' not found`, not the claimed
`tool not found: missing`. -/
theorem validation_skipped_counterexample :
    requiredOk greetTool.input_schema invalidGreetUse.input = false ∧
    handle_tool_use demoRegistry invalidGreetUse = ⟨"req1", "HI", false⟩ ∧
    (handle_tool_use demoRegistry invalidGreetUse).is_error = false ∧
    (handle_tool_use ([] : Registry) missingUse).content ≠
      "tool not found: missing" ∧
    (handle_tool_use ([] : Registry) missingUse).is_error = true := by
  refine ⟨rfl, rfl, rfl, ?_, rfl⟩
  decide

/-- C3 amended: no validation against the tool's input schema happens before
the handler is invoked — for a registered tool with a handler, the result is
exactly the handler's outcome on the raw arguments, even when they fail the
schema's required-properties check — and an unregistered tool name yields an
error result with content `Error: Tool '<name>' not found`. -/
theorem dispatch_invokes_handler_unvalidated (tools : Registry) (tu : ToolUse)
    (t : Tool) (f : ToolInput → Except String String)
    (hfind : find? tools tu.name = some t) (hh : t.handler = some f)
    (hbad : requiredOk t.input_schema tu.input = false) :
    handle_tool_use tools tu =
      (match f tu.input with
       | Except.ok r => ⟨tu.id, r, false⟩
       | Except.error e =>
           ⟨tu.id, "Error executing tool " ++ sq ++ tu.name ++ sq ++ ": " ++ e, true⟩) ∧
    (∀ tu2 : ToolUse, find? tools tu2.name = none →
      handle_tool_use tools tu2 =
        ⟨tu2.id, "Error: Tool " ++ sq ++ tu2.name ++ sq ++ " not found", true⟩) := by
  constructor
  · simp [handle_tool_use, hfind, hh]
  · intro tu2 hnone
    simp [handle_tool_use, hnone]

/-- Witness for the amended C3: the schema-invalid `greet` request is handled
by invoking the handler, whose successful output becomes the result. -/
theorem dispatch_invokes_handler_unvalidated_witness :
    (find? demoRegistry invalidGreetUse.name = some greetTool ∧
     greetTool.handler = some greetHandler ∧
     requiredOk greetTool.input_schema invalidGreetUse.input = false) ∧
    (handle_tool_use demoRegistry invalidGreetUse =
       (match greetHandler invalidGreetUse.input with
        | Except.ok r => ⟨invalidGreetUse.id, r, false⟩
        | Except.error e =>
            ⟨invalidGreetUse.id,
             "Error executing tool " ++ sq ++ invalidGreetUse.name ++ sq ++ ": " ++ e,
             true⟩) ∧
     (∀ tu2 : ToolUse, find? demoRegistry tu2.name = none →
       handle_tool_use demoRegistry tu2 =
         ⟨tu2.id, "Error: Tool " ++ sq ++ tu2.name ++ sq ++ " not found", true⟩)) :=
  ⟨⟨rfl, rfl, rfl⟩,
   dispatch_invokes_handler_unvalidated demoRegistry invalidGreetUse greetTool
     greetHandler rfl rfl rfl⟩

/-- C6 counterexample: a run that streams `Hello` and then hits a transport
failure returns only the failure reason — an outcome identical to a run that
streamed nothing before the same failure — so the partial text is silently
discarded rather than exposed alongside the reason. -/
theorem partial_text_discarded_counterexample :
    think ([] : Registry) "q"
        [StreamEvent.content_block_delta "Hello",
         StreamEvent.transport_error "connection lost"]
      = Except.error "connection lost" ∧
    think ([] : Registry) "q"
        [StreamEvent.content_block_delta "Hello",
         StreamEvent.transport_error "connection lost"]
      = think ([] : Registry) "q" [StreamEvent.transport_error "connection lost"] :=
  ⟨rfl, rfl⟩

/-- C6 amended: when the transport fails after any sequence of streamed text
fragments, `think` propagates only the failure reason; the accumulated partial
text does not appear in the outcome, which is the same whatever was streamed
before the failure. -/
theorem transport_failure_discards_partial_text (tools : Registry)
    (message : String) (ts : List String) (reason : String)
    (rest : List StreamEvent) :
    think tools message
        (ts.map StreamEvent.content_block_delta ++
          StreamEvent.transport_error reason :: rest)
      = Except.error reason := by
  unfold think
  rw [runStream_error_after_deltas]

/-- C8: a run whose stream carries no tool-invocation request and no transport
failure terminates successfully, returning exactly the concatenation of its
text-delta fragments in emission order. -/
theorem final_text_is_delta_concat (tools : Registry) (message : String)
    (events : List StreamEvent)
    (h : events.all (fun e => !e.isToolCalls && !e.isTransportError) = true) :
    think tools message events = Except.ok (concatDeltas events) := by
  unfold think
  rw [runStream_quiet tools events "" _ _ h]
  simp

/-- Witness for C8: a four-event stream with two deltas yields `Hello`. -/
theorem final_text_is_delta_concat_witness :
    ([StreamEvent.message_start, StreamEvent.content_block_start,
      StreamEvent.content_block_delta "Hel",
      StreamEvent.content_block_delta "lo"].all
        (fun e => !e.isToolCalls && !e.isTransportError) = true) ∧
    think ([] : Registry) "what greeting?"
        [StreamEvent.message_start, StreamEvent.content_block_start,
         StreamEvent.content_block_delta "Hel",
         StreamEvent.content_block_delta "lo"]
      = Except.ok (concatDeltas
          [StreamEvent.message_start, StreamEvent.content_block_start,
           StreamEvent.content_block_delta "Hel",
           StreamEvent.content_block_delta "lo"]) :=
  ⟨by decide,
   final_text_is_delta_concat ([] : Registry) "what greeting?"
     [StreamEvent.message_start, StreamEvent.content_block_start,
      StreamEvent.content_block_delta "Hel",
      StreamEvent.content_block_delta "lo"] (by decide)⟩

/-- C4: a registered managed agent starts with status `idle`; a delegation
call to a present agent writes `working` before invoking the managed `think`,
then writes `idle` on normal return or `error` on a raise — the side-effect
trace is exactly those three steps in program order — and the status left in
the registry after the call equals that final write, which is never
`working`. -/
theorem delegate_status_lifecycle (agents : Agents) (agent_name task : String)
    (info : AgentInfo) (hfind : dictFind? agents agent_name = some info) :
    (handle_delegate_task agents agent_name task).2.2 =
      [DelegateStep.set_status agent_name "working",
       DelegateStep.invoke_think agent_name task,
       DelegateStep.set_status agent_name (statusAfter (info.think task))] ∧
    (dictFind? (handle_delegate_task agents agent_name task).1 agent_name).map
        AgentInfo.status = some (statusAfter (info.think task)) ∧
    statusAfter (info.think task) ≠ "working" ∧
    (∀ (m : Agents) (n d : String) (c : List String)
        (f : String → Except String String),
      (dictFind? (handle_register_agent m n d c f).1 n).map AgentInfo.status
        = some "idle") := by
  refine ⟨?_, ?_, ?_, ?_⟩
  · cases h : info.think task <;>
      simp [handle_delegate_task, hfind, h, statusAfter]
  · cases h : info.think task <;>
      simp [handle_delegate_task, hfind, h, statusAfter, dictFind?_dictSet_self]
  · cases h : info.think task <;> simp [statusAfter]
  · intro m n d c f
    simp [handle_register_agent, dictFind?_dictSet_self]

/-- Witness for C4: delegating to the registered `Writer` agent, whose `think`
succeeds, ends with status `idle` after the working→idle trace. -/
theorem delegate_status_lifecycle_witness :
    (dictFind? demoAgents "Writer" =
      some ⟨fun _ => Except.ok "a title", "drafts text", ["writing"], "idle"⟩) ∧
    ((handle_delegate_task demoAgents "Writer" "draft a title").2.2 =
      [DelegateStep.set_status "Writer" "working",
       DelegateStep.invoke_think "Writer" "draft a title",
       DelegateStep.set_status "Writer"
         (statusAfter ((fun _ => Except.ok "a title" :
            String → Except String String) "draft a title"))] ∧
     (dictFind? (handle_delegate_task demoAgents "Writer" "draft a title").1
         "Writer").map AgentInfo.status =
       some (statusAfter ((fun _ => Except.ok "a title" :
          String → Except String String) "draft a title")) ∧
     statusAfter ((fun _ => Except.ok "a title" :
        String → Except String String) "draft a title") ≠ "working" ∧
     (∀ (m : Agents) (n d : String) (c : List String)
         (f : String → Except String String),
       (dictFind? (handle_register_agent m n d c f).1 n).map AgentInfo.status
         = some "idle")) :=
  ⟨rfl,
   delegate_status_lifecycle demoAgents "Writer" "draft a title"
     ⟨fun _ => Except.ok "a title", "drafts text", ["writing"], "idle"⟩ rfl⟩

/-- C5: delegating to a name absent from the managed-agent registry returns
the source's not-found string — which contains `not found` — and leaves the
registry unchanged, creating no `AgentInfo` entry. -/
theorem delegate_absent_not_found (agents : Agents) (agent_name task : String)
    (h : dictFind? agents agent_name = none) :
    handle_delegate_task agents agent_name task =
      (agents, "Error: Agent " ++ sq ++ agent_name ++ sq ++ " not found", []) ∧
    (∃ pre : String,
      (handle_delegate_task agents agent_name task).2.1 = pre ++ "not found") := by
  have heq : handle_delegate_task agents agent_name task =
      (agents, "Error: Agent " ++ sq ++ agent_name ++ sq ++ " not found", []) := by
    simp [handle_delegate_task, h]
  refine ⟨heq, ⟨"Error: Agent " ++ sq ++ agent_name ++ sq ++ " ", ?_⟩⟩
  rw [heq]
  show "Error: Agent " ++ sq ++ agent_name ++ sq ++ " not found" =
    "Error: Agent " ++ sq ++ agent_name ++ sq ++ " " ++ "not found"
  have hsp : (" not found" : String) = " " ++ "not found" := rfl
  rw [hsp]
  simp [String.append_assoc]

/-- Witness for C5: delegating `Writer` against an empty managed-agent
registry fails with the not-found string and leaves the registry empty. -/
theorem delegate_absent_not_found_witness :
    dictFind? ([] : Agents) "Writer" = none ∧
    (handle_delegate_task ([] : Agents) "Writer" "draft a title" =
       (([] : Agents), "Error: Agent " ++ sq ++ "Writer" ++ sq ++ " not found", []) ∧
     (∃ pre : String,
       (handle_delegate_task ([] : Agents) "Writer" "draft a title").2.1 =
         pre ++ "not found")) :=
  ⟨rfl, delegate_absent_not_found ([] : Agents) "Writer" "draft a title" rfl⟩

/-- C9: in the core `Agent` class with `is_orchestrator` true, delegation to a
present managed agent returns `None` with no side effect and no invocation of
the managed agent's `think` (the empty trace) — the success path performs no
delegation — while the not-an-orchestrator and not-found branches are the only
ones returning a string. -/
theorem delegate_success_path_returns_none (managed : Agents)
    (agent_name task : String)
    (h : (dictFind? managed agent_name).isSome = true) :
    agent_handle_delegate_task true managed agent_name task = (none, []) ∧
    agent_handle_delegate_task false managed agent_name task =
      (some "Error: Agent is not configured as an orchestrator", []) ∧
    (∀ (m : Agents) (n t2 : String), dictFind? m n = none →
      agent_handle_delegate_task true m n t2 =
        (some ("Error: Agent " ++ sq ++ n ++ sq ++ " not found"), [])) := by
  refine ⟨by simp [agent_handle_delegate_task, h],
          by simp [agent_handle_delegate_task], ?_⟩
  intro m n t2 hn
  simp [agent_handle_delegate_task, hn]

/-- Witness for C9: with `Writer` present, the core delegation handler
returns `None` and performs nothing. -/
theorem delegate_success_path_returns_none_witness :
    (dictFind? demoAgents "Writer").isSome = true ∧
    (agent_handle_delegate_task true demoAgents "Writer" "draft a title" =
       (none, []) ∧
     agent_handle_delegate_task false demoAgents "Writer" "draft a title" =
       (some "Error: Agent is not configured as an orchestrator", []) ∧
     (∀ (m : Agents) (n t2 : String), dictFind? m n = none →
       agent_handle_delegate_task true m n t2 =
         (some ("Error: Agent " ++ sq ++ n ++ sq ++ " not found"), []))) :=
  ⟨rfl,
   delegate_success_path_returns_none demoAgents "Writer" "draft a title" rfl⟩

end Tangents
